import Mathlib

/-!
Shallow embedding of `src/chemeos/antoine.py`: the Antoine-equation
coefficient library (`AntoineCoefficientLib`) and the correlation evaluator
(`saturation_pressure`).

Modelling choices:
* Python float values (coefficients, temperature limits, temperatures) are
  modelled as exact rationals `ℚ`; the transcendental result of the evaluator
  lives in `ℝ` (`Real.rpow` / `Real.exp`).
* Python exceptions are modelled by `Except PyError`.  `SpeciesNotFound` and
  `TemperatureOutOfRange` carry the constructor argument they are raised with
  (`none` models a bare `SpeciesNotFound()` / `TemperatureOutOfRange()`); the
  out-of-range message built in `get_coeffs` is abstracted to the data it
  interpolates: the queried temperature and the units label.
  Python float division by zero raises `ZeroDivisionError`, modelled by
  `pydiv` returning `.error .zeroDivisionError`; exception propagation through
  an intermediate computation is `Except.bind`.
* The insertion-ordered Python dict `antoine_coeff_lib` is modelled as an
  association list; a fresh key is appended at the end, matching dict
  insertion order.
-/

/-- One Antoine coefficient set: the dictionary
`{'A': a, 'B': b, 'C': c, "lower temperature limit": lo,
"upper temperature limit": hi}` built by `add_coefficients`. -/
structure CoefficientSet where
  A : ℚ
  B : ℚ
  C : ℚ
  lower_limit : ℚ
  upper_limit : ℚ
  deriving DecidableEq, Repr

/-- The exceptions of `antoine.py` (plus Python's division-by-zero error). -/
inductive PyError where
  | speciesNotFound (msg : Option String)
  | temperatureOutOfRange (payload : Option (ℚ × String))
  | zeroDivisionError
  deriving DecidableEq, Repr

instance {ε α : Type} [DecidableEq ε] [DecidableEq α] : DecidableEq (Except ε α) :=
  fun x y =>
    match x, y with
    | .error e, .error e' => decidable_of_iff (e = e') (by simp)
    | .error _, .ok _ => .isFalse (fun h => by cases h)
    | .ok _, .error _ => .isFalse (fun h => by cases h)
    | .ok a, .ok b => decidable_of_iff (a = b) (by simp)

/-- Python float division: raises `ZeroDivisionError` on a zero denominator. -/
def pydiv (x y : ℚ) : Except PyError ℚ :=
  if y = 0 then .error .zeroDivisionError else .ok (x / y)

/-- The float constant `np.e`. -/
noncomputable def np_e : ℝ := Real.exp 1

/-- `saturation_pressure(coeff_a_val, coeff_b_val, coeff_c_val, temp, is_log10)`:
computes `exponent = coeff_a_val - coeff_b_val/(coeff_c_val + temp)` and returns
`10**exponent` when `is_log10` is true, else `np.e**exponent`.  A zero
denominator makes the exponent computation raise `ZeroDivisionError`, which
propagates. -/
noncomputable def saturation_pressure
    (coeff_a_val coeff_b_val coeff_c_val temp : ℚ) (is_log10 : Bool) :
    Except PyError ℝ :=
  (pydiv coeff_b_val (coeff_c_val + temp)).bind fun q =>
    let exponent : ℚ := coeff_a_val - q
    if is_log10 then .ok ((10 : ℝ) ^ (exponent : ℝ))
    else .ok (np_e ^ (exponent : ℝ))

/-- `_check_temperature(temperature, dct)`: true iff
`temperature >= dct["lower temperature limit"] and
temperature <= dct["upper temperature limit"]`. -/
def _check_temperature (temperature : ℚ) (dct : CoefficientSet) : Bool :=
  decide (temperature ≥ dct.lower_limit ∧ temperature ≤ dct.upper_limit)

/-- Lookup in an insertion-ordered dict modelled as an association list. -/
def dictLookup {α : Type} : List (String × α) → String → Option α
  | [], _ => none
  | (k, v) :: rest, key => if k = key then some v else dictLookup rest key

/-- `key in dict` membership test. -/
def dictContains {α : Type} (d : List (String × α)) (key : String) : Bool :=
  (dictLookup d key).isSome

/-- `self.antoine_coeff_lib[species_name].append(new_item)` when the key is
present, else `self.antoine_coeff_lib[species_name] = [new_item]` (a fresh dict
key is appended at the end, matching insertion order). -/
def dictAppendAt : List (String × List CoefficientSet) → String → CoefficientSet →
    List (String × List CoefficientSet)
  | [], key, v => [(key, [v])]
  | (k, vs) :: rest, key, v =>
    if k = key then (k, vs ++ [v]) :: rest
    else (k, vs) :: dictAppendAt rest key v

/-- The class `AntoineCoefficientLib`: descriptive attributes fixed at
construction plus the species dictionary. -/
structure AntoineCoefficientLib where
  source : String
  temperature_units : String
  pressure_units : String
  antoine_coeff_lib : List (String × List CoefficientSet)
  is_log10 : Bool
  deriving DecidableEq, Repr

/-- `AntoineCoefficientLib.__init__(temperature_units, pressure_units, source,
is_log10)`: starts with an empty dictionary. -/
def AntoineCoefficientLib.init
    (temperature_units pressure_units source : String) (is_log10 : Bool) :
    AntoineCoefficientLib :=
  ⟨source, temperature_units, pressure_units, [], is_log10⟩

/-- `add_coefficients`: builds the new item and appends it to the entry for
`species_name`, creating the entry if the species is unseen. -/
def AntoineCoefficientLib.add_coefficients (lib : AntoineCoefficientLib)
    (species_name : String)
    (coeff_a_val coeff_b_val coeff_c_val
      lower_temperature_limit_val upper_temperature_limit_val : ℚ) :
    AntoineCoefficientLib :=
  ⟨lib.source, lib.temperature_units, lib.pressure_units,
    dictAppendAt lib.antoine_coeff_lib species_name
      ⟨coeff_a_val, coeff_b_val, coeff_c_val,
        lower_temperature_limit_val, upper_temperature_limit_val⟩,
    lib.is_log10⟩

/-- The `for dct in coeffs` loop of `get_coeffs` together with the trailing
`raise TemperatureOutOfRange(...)`: returns the first set passing
`_check_temperature`, scanning in order; falls through to the raise (whose
message interpolates the queried temperature and the units label) when no set
passes. -/
def scanCoeffs (temperature : ℚ) (temperature_units : String) :
    List CoefficientSet → Except PyError CoefficientSet
  | [] => .error (.temperatureOutOfRange (some (temperature, temperature_units)))
  | dct :: rest =>
    if _check_temperature temperature dct then .ok dct
    else scanCoeffs temperature temperature_units rest

/-- `get_coeffs(species_name, temperature)`: raises `SpeciesNotFound` (with a
message naming the species) for an unknown key, else runs the scan loop on the
species' list. -/
def AntoineCoefficientLib.get_coeffs (lib : AntoineCoefficientLib)
    (species_name : String) (temperature : ℚ) : Except PyError CoefficientSet :=
  if dictContains lib.antoine_coeff_lib species_name = false then
    .error (.speciesNotFound (some (species_name ++ " is not in this dictionary")))
  else
    scanCoeffs temperature lib.temperature_units
      ((dictLookup lib.antoine_coeff_lib species_name).getD [])

/-- `get_a`: `self.get_coeffs(species_name, temperature)['A']`. -/
def AntoineCoefficientLib.get_a (lib : AntoineCoefficientLib)
    (species_name : String) (temperature : ℚ) : Except PyError ℚ :=
  (lib.get_coeffs species_name temperature).map (fun d => d.A)

/-- `get_b`: `self.get_coeffs(species_name, temperature)['B']`. -/
def AntoineCoefficientLib.get_b (lib : AntoineCoefficientLib)
    (species_name : String) (temperature : ℚ) : Except PyError ℚ :=
  (lib.get_coeffs species_name temperature).map (fun d => d.B)

/-- `get_c`: `self.get_coeffs(species_name, temperature)['C']`. -/
def AntoineCoefficientLib.get_c (lib : AntoineCoefficientLib)
    (species_name : String) (temperature : ℚ) : Except PyError ℚ :=
  (lib.get_coeffs species_name temperature).map (fun d => d.C)

/-- `get_saturation_pressure(species_name, temperature)`: raises a bare
`SpeciesNotFound()` for an unknown key, resolves the coefficient set via
`get_coeffs` (propagating its failures), re-checks the temperature (raising a
bare `TemperatureOutOfRange()` on failure), then delegates to
`saturation_pressure` with the library's `is_log10` flag. -/
noncomputable def AntoineCoefficientLib.get_saturation_pressure
    (lib : AntoineCoefficientLib) (species_name : String) (temperature : ℚ) :
    Except PyError ℝ :=
  if dictContains lib.antoine_coeff_lib species_name = false then
    .error (.speciesNotFound none)
  else
    (lib.get_coeffs species_name temperature).bind fun coeffs =>
      if _check_temperature temperature coeffs = false then
        .error (.temperatureOutOfRange none)
      else
        saturation_pressure coeffs.A coeffs.B coeffs.C temperature lib.is_log10

/-- The method calls of `AntoineCoefficientLib`, as explicit operations over
the library state. -/
inductive LibOp where
  | getCoeffsOp (s : String) (T : ℚ)
  | getAOp (s : String) (T : ℚ)
  | getBOp (s : String) (T : ℚ)
  | getCOp (s : String) (T : ℚ)
  | getSatPressureOp (s : String) (T : ℚ)
  | addCoefficientsOp (s : String) (a b c lo hi : ℚ)

/-- Result values of the methods. -/
inductive LibValue where
  | coeffs (d : CoefficientSet)
  | scalar (q : ℚ)
  | pressure (p : ℝ)
  | unit

/-- Every operation except `add_coefficients` is a query. -/
def LibOp.isQuery : LibOp → Bool
  | .addCoefficientsOp _ _ _ _ _ _ => false
  | _ => true

/-- Method-call semantics with explicit state passing: the post-state of each
method together with its result.  The query methods of `antoine.py` contain no
assignment to any `self` field, so they leave the receiver unchanged;
`add_coefficients` updates the dictionary. -/
noncomputable def runOp (lib : AntoineCoefficientLib) :
    LibOp → AntoineCoefficientLib × Except PyError LibValue
  | .getCoeffsOp s T => (lib, (lib.get_coeffs s T).map .coeffs)
  | .getAOp s T => (lib, (lib.get_a s T).map .scalar)
  | .getBOp s T => (lib, (lib.get_b s T).map .scalar)
  | .getCOp s T => (lib, (lib.get_c s T).map .scalar)
  | .getSatPressureOp s T => (lib, (lib.get_saturation_pressure s T).map .pressure)
  | .addCoefficientsOp s a b c lo hi => (lib.add_coefficients s a b c lo hi, .ok .unit)

/-- The `boublik_et_al` library of `src.py` after registering methanol. -/
def methanolLib : AntoineCoefficientLib :=
  (AntoineCoefficientLib.init "Celsius" "mmHg"
      "T. Boublik, V. Fried, and E. Hala, Vapour Pressures of Pure Substances, Elsevier, Amsterdam, 1973"
      true).add_coefficients "methanol" 8.08097 1582.271 239.726 14.9 83.7

/-- The methanol coefficient set of `src.py`. -/
def methanolSet : CoefficientSet :=
  ⟨8.08097, 1582.271, 239.726, 14.9, 83.7⟩

/-! ### Helper lemmas -/

theorem check_temperature_eq_true (T : ℚ) (d : CoefficientSet) :
    _check_temperature T d = true ↔ d.lower_limit ≤ T ∧ T ≤ d.upper_limit := by
  simp [_check_temperature, ge_iff_le]

theorem check_temperature_eq_false (T : ℚ) (d : CoefficientSet) :
    _check_temperature T d = false ↔ ¬(d.lower_limit ≤ T ∧ T ≤ d.upper_limit) := by
  simp [_check_temperature, ge_iff_le]

theorem scanCoeffs_ok_first (T : ℚ) (u : String) (l : List CoefficientSet)
    (d : CoefficientSet) (h : scanCoeffs T u l = .ok d) :
    ∃ i : Fin l.length, l.get i = d ∧ _check_temperature T d = true ∧
      ∀ j : Fin l.length, (j : ℕ) < (i : ℕ) → _check_temperature T (l.get j) = false := by
  induction l with
  | nil => simp [scanCoeffs] at h
  | cons dct rest ih =>
    by_cases hc : _check_temperature T dct
    · rw [scanCoeffs, if_pos hc] at h
      obtain rfl : dct = d := by cases h; rfl
      exact ⟨⟨0, by simp⟩, rfl, hc, fun j hj => absurd hj (by simp)⟩
    · rw [scanCoeffs, if_neg hc] at h
      obtain ⟨i, hi, hchk, hfirst⟩ := ih h
      refine ⟨i.succ, hi, hchk, fun j hj => ?_⟩
      match j with
      | ⟨0, _⟩ => simpa using hc
      | ⟨j' + 1, hj'⟩ =>
        exact hfirst ⟨j', Nat.lt_of_succ_lt_succ hj'⟩ (Nat.lt_of_succ_lt_succ hj)

theorem scanCoeffs_ok_check (T : ℚ) (u : String) (l : List CoefficientSet)
    (d : CoefficientSet) (h : scanCoeffs T u l = .ok d) :
    _check_temperature T d = true :=
  (scanCoeffs_ok_first T u l d h).choose_spec.2.1

theorem scanCoeffs_error_of_all_false (T : ℚ) (u : String) (l : List CoefficientSet)
    (h : ∀ d ∈ l, _check_temperature T d = false) :
    scanCoeffs T u l = .error (.temperatureOutOfRange (some (T, u))) := by
  induction l with
  | nil => rfl
  | cons dct rest ih =>
    rw [scanCoeffs, if_neg (by simp [h dct (by simp)]), ih (fun d hd => h d (by simp [hd]))]

theorem get_coeffs_of_lookup_none (lib : AntoineCoefficientLib) (s : String) (T : ℚ)
    (h : dictLookup lib.antoine_coeff_lib s = none) :
    lib.get_coeffs s T
      = .error (.speciesNotFound (some (s ++ " is not in this dictionary"))) := by
  simp [AntoineCoefficientLib.get_coeffs, dictContains, h]

theorem get_coeffs_of_lookup_some (lib : AntoineCoefficientLib) (s : String) (T : ℚ)
    (sets : List CoefficientSet) (h : dictLookup lib.antoine_coeff_lib s = some sets) :
    lib.get_coeffs s T = scanCoeffs T lib.temperature_units sets := by
  simp [AntoineCoefficientLib.get_coeffs, dictContains, h]

theorem get_coeffs_ok_check (lib : AntoineCoefficientLib) (s : String) (T : ℚ)
    (cs : CoefficientSet) (h : lib.get_coeffs s T = .ok cs) :
    _check_temperature T cs = true := by
  rcases hl : dictLookup lib.antoine_coeff_lib s with _ | sets
  · rw [get_coeffs_of_lookup_none lib s T hl] at h
    cases h
  · rw [get_coeffs_of_lookup_some lib s T sets hl] at h
    exact scanCoeffs_ok_check T lib.temperature_units sets cs h

theorem get_coeffs_ok_contains (lib : AntoineCoefficientLib) (s : String) (T : ℚ)
    (cs : CoefficientSet) (h : lib.get_coeffs s T = .ok cs) :
    dictContains lib.antoine_coeff_lib s = true := by
  rcases hl : dictLookup lib.antoine_coeff_lib s with _ | sets
  · rw [get_coeffs_of_lookup_none lib s T hl] at h
    cases h
  · simp [dictContains, hl]

theorem saturation_pressure_error_elim (a b c T : ℚ) (flag : Bool) (e : PyError)
    (h : saturation_pressure a b c T flag = .error e) : e = .zeroDivisionError := by
  by_cases hz : c + T = 0
  · rw [saturation_pressure, pydiv, if_pos hz] at h
    cases h; rfl
  · rw [saturation_pressure, pydiv, if_neg hz] at h
    cases flag <;> simp [Except.bind] at h

theorem get_saturation_pressure_of_get_coeffs_ok (lib : AntoineCoefficientLib)
    (s : String) (T : ℚ) (cs : CoefficientSet) (h : lib.get_coeffs s T = .ok cs) :
    lib.get_saturation_pressure s T
      = saturation_pressure cs.A cs.B cs.C T lib.is_log10 := by
  rw [AntoineCoefficientLib.get_saturation_pressure,
    if_neg (by simp [get_coeffs_ok_contains lib s T cs h]), h]
  show (if _check_temperature T cs = false then _ else _) = _
  rw [if_neg (by simp [get_coeffs_ok_check lib s T cs h])]

/-- A library with two overlapping-interval sets registered for one species. -/
def overlapLib : AntoineCoefficientLib :=
  ((AntoineCoefficientLib.init "Kelvin" "kPa" "demo source" true).add_coefficients
      "water" 1 2 3 0 50).add_coefficients "water" 4 5 6 25 75

/-- The two coefficient sets of `overlapLib`, in registration order. -/
def overlapSets : List CoefficientSet := [⟨1, 2, 3, 0, 50⟩, ⟨4, 5, 6, 25, 75⟩]

/-- A library whose single set has `C = -50` on an interval containing `50`. -/
def zeroDenomLib : AntoineCoefficientLib :=
  (AntoineCoefficientLib.init "Kelvin" "kPa" "demo source" true).add_coefficients
    "x" 1 1 (-50) 0 100

theorem methanol_get_coeffs_eval :
    methanolLib.get_coeffs "methanol" 50 = .ok methanolSet := by
  norm_num [methanolLib, methanolSet, AntoineCoefficientLib.get_coeffs,
    AntoineCoefficientLib.add_coefficients, AntoineCoefficientLib.init,
    dictAppendAt, dictLookup, dictContains, scanCoeffs, _check_temperature]

/-! ### Claims -/

/-- C1: whenever `get_coeffs` resolves a coefficient set for `(s, T)`,
`get_saturation_pressure(s, T)` returns exactly `saturation_pressure` applied
to that set's coefficients, the query temperature, and the library's log-base
flag. -/
theorem get_saturation_pressure_delegates_to_evaluator
    (lib : AntoineCoefficientLib) (s : String) (T : ℚ) (cs : CoefficientSet)
    (h : lib.get_coeffs s T = .ok cs) :
    lib.get_saturation_pressure s T
      = saturation_pressure cs.A cs.B cs.C T lib.is_log10 :=
  get_saturation_pressure_of_get_coeffs_ok lib s T cs h

/-- C1 witness: the methanol scenario — `get_saturation_pressure("methanol", 50)`
equals `10**(8.08097 - 1582.271/(239.726 + 50))`. -/
theorem get_saturation_pressure_methanol_scenario :
    methanolLib.get_coeffs "methanol" 50 = .ok methanolSet ∧
    methanolLib.get_saturation_pressure "methanol" 50
      = .ok ((10 : ℝ) ^ ((8.08097 : ℝ) - 1582.271 / (239.726 + 50))) := by
  have h := methanol_get_coeffs_eval
  refine ⟨h, ?_⟩
  rw [get_saturation_pressure_delegates_to_evaluator methanolLib "methanol" 50 methanolSet h,
    saturation_pressure, pydiv, if_neg (by norm_num [methanolSet])]
  show Except.ok ((10 : ℝ) ^ ((methanolSet.A - methanolSet.B / (methanolSet.C + 50) : ℚ) : ℝ)) = _
  rw [Except.ok.injEq]
  congr 1
  push_cast [methanolSet]
  norm_num

/-- C2: a set returned by `get_coeffs` for a registered species is the first
set in registration order whose interval contains the temperature, both
endpoints inclusive; all earlier sets' intervals do not contain it. -/
theorem get_coeffs_returns_first_matching_set
    (lib : AntoineCoefficientLib) (s : String) (T : ℚ)
    (sets : List CoefficientSet) (cs : CoefficientSet)
    (hs : dictLookup lib.antoine_coeff_lib s = some sets)
    (h : lib.get_coeffs s T = .ok cs) :
    ∃ i : Fin sets.length, sets.get i = cs ∧
      (cs.lower_limit ≤ T ∧ T ≤ cs.upper_limit) ∧
      ∀ j : Fin sets.length, (j : ℕ) < (i : ℕ) →
        ¬((sets.get j).lower_limit ≤ T ∧ T ≤ (sets.get j).upper_limit) := by
  rw [get_coeffs_of_lookup_some lib s T sets hs] at h
  obtain ⟨i, hi, hchk, hfirst⟩ := scanCoeffs_ok_first T lib.temperature_units sets cs h
  exact ⟨i, hi, (check_temperature_eq_true T cs).mp hchk,
    fun j hj => (check_temperature_eq_false T (sets.get j)).mp (hfirst j hj)⟩

/-- C2 witness: with two overlapping sets registered S1 then S2 and a
temperature contained in both, `get_coeffs` returns S1, and S1 is the first
match. -/
theorem get_coeffs_first_match_tie_break_instance :
    overlapLib.get_coeffs "water" 30 = .ok ⟨1, 2, 3, 0, 50⟩ ∧
    (∃ i : Fin overlapSets.length, overlapSets.get i = ⟨1, 2, 3, 0, 50⟩ ∧
      ((1 : ℚ) ≤ 30 → True) ∧
      ∀ j : Fin overlapSets.length, (j : ℕ) < (i : ℕ) →
        ¬((overlapSets.get j).lower_limit ≤ 30 ∧ (30 : ℚ) ≤ (overlapSets.get j).upper_limit)) := by
  constructor
  · decide
  · obtain ⟨i, hi, _, hfirst⟩ := get_coeffs_returns_first_matching_set overlapLib "water" 30
      overlapSets ⟨1, 2, 3, 0, 50⟩ (by decide) (by decide)
    exact ⟨i, hi, fun _ => trivial, hfirst⟩

/-- C3: for `c + T ≠ 0`, `saturation_pressure(a, b, c, T, use_log10)` returns
`10^(a - b/(c + T))` when `use_log10` is true and `e^(a - b/(c + T))` when it
is false. -/
theorem saturation_pressure_closed_form (a b c T : ℚ) (use_log10 : Bool)
    (h : c + T ≠ 0) :
    saturation_pressure a b c T use_log10
      = .ok (if use_log10 then
              (10 : ℝ) ^ ((a : ℝ) - (b : ℝ) / ((c : ℝ) + (T : ℝ)))
            else
              Real.exp ((a : ℝ) - (b : ℝ) / ((c : ℝ) + (T : ℝ)))) := by
  rw [saturation_pressure, pydiv, if_neg h]
  cases use_log10 with
  | true =>
    show Except.ok ((10 : ℝ) ^ ((a - b / (c + T) : ℚ) : ℝ))
      = Except.ok ((10 : ℝ) ^ ((a : ℝ) - (b : ℝ) / ((c : ℝ) + (T : ℝ))))
    rw [Except.ok.injEq]
    congr 1
    push_cast
    ring
  | false =>
    show Except.ok (np_e ^ ((a - b / (c + T) : ℚ) : ℝ))
      = Except.ok (Real.exp ((a : ℝ) - (b : ℝ) / ((c : ℝ) + (T : ℝ))))
    rw [Except.ok.injEq, np_e, Real.exp_one_rpow]
    congr 1
    push_cast
    ring

/-- C3 witness: at `a = b = 1`, `c = 0`, `T = 1` with the natural-log flag,
the result is `e^(1 - 1/(0 + 1))`. -/
theorem saturation_pressure_closed_form_instance :
    ((0 : ℚ) + 1 ≠ 0) ∧
    saturation_pressure 1 1 0 1 false
      = .ok (Real.exp ((1 : ℝ) - (1 : ℝ) / ((0 : ℝ) + (1 : ℝ)))) := by
  refine ⟨by norm_num, ?_⟩
  have := saturation_pressure_closed_form 1 1 0 1 false (by norm_num)
  simpa using this

/-- C4: every query operation applied to a species name that was never
registered fails with `SpeciesNotFound`, for every temperature argument. -/
theorem unknown_species_queries_raise_speciesNotFound
    (lib : AntoineCoefficientLib) (s : String) (T : ℚ)
    (h : dictLookup lib.antoine_coeff_lib s = none) :
    (∃ m, lib.get_coeffs s T = .error (.speciesNotFound m)) ∧
    (∃ m, lib.get_a s T = .error (.speciesNotFound m)) ∧
    (∃ m, lib.get_b s T = .error (.speciesNotFound m)) ∧
    (∃ m, lib.get_c s T = .error (.speciesNotFound m)) ∧
    (∃ m, lib.get_saturation_pressure s T = .error (.speciesNotFound m)) := by
  have hc := get_coeffs_of_lookup_none lib s T h
  refine ⟨⟨_, hc⟩,
    ⟨some (s ++ " is not in this dictionary"), ?_⟩,
    ⟨some (s ++ " is not in this dictionary"), ?_⟩,
    ⟨some (s ++ " is not in this dictionary"), ?_⟩,
    ⟨none, ?_⟩⟩
  · rw [AntoineCoefficientLib.get_a, hc]; rfl
  · rw [AntoineCoefficientLib.get_b, hc]; rfl
  · rw [AntoineCoefficientLib.get_c, hc]; rfl
  · rw [AntoineCoefficientLib.get_saturation_pressure,
      if_pos (by simp [dictContains, h])]

/-- C4 witness: querying "ethanol" on the methanol library fails with
`SpeciesNotFound` in all five query operations. -/
theorem unknown_species_instance :
    dictLookup methanolLib.antoine_coeff_lib "ethanol" = none ∧
    ((∃ m, methanolLib.get_coeffs "ethanol" 50 = .error (.speciesNotFound m)) ∧
     (∃ m, methanolLib.get_a "ethanol" 50 = .error (.speciesNotFound m)) ∧
     (∃ m, methanolLib.get_b "ethanol" 50 = .error (.speciesNotFound m)) ∧
     (∃ m, methanolLib.get_c "ethanol" 50 = .error (.speciesNotFound m)) ∧
     (∃ m, methanolLib.get_saturation_pressure "ethanol" 50
        = .error (.speciesNotFound m))) :=
  ⟨by decide,
   unknown_species_queries_raise_speciesNotFound methanolLib "ethanol" 50 (by decide)⟩

/-- C5: for a registered species none of whose intervals contains `T`,
`get_coeffs` fails with `TemperatureOutOfRange` carrying the queried
temperature and the library's temperature-units label. -/
theorem get_coeffs_out_of_range_payload
    (lib : AntoineCoefficientLib) (s : String) (T : ℚ)
    (sets : List CoefficientSet)
    (hs : dictLookup lib.antoine_coeff_lib s = some sets)
    (h : ∀ cs ∈ sets, ¬(cs.lower_limit ≤ T ∧ T ≤ cs.upper_limit)) :
    lib.get_coeffs s T
      = .error (.temperatureOutOfRange (some (T, lib.temperature_units))) := by
  rw [get_coeffs_of_lookup_some lib s T sets hs]
  exact scanCoeffs_error_of_all_false T lib.temperature_units sets
    (fun d hd => (check_temperature_eq_false T d).mpr (h d hd))

/-- C5 witness: `overlapLib` covers only `[0,50]` and `[25,75]`; at `T = 100`
the query fails carrying `(100, "Kelvin")`. -/
theorem get_coeffs_out_of_range_instance :
    (∀ cs ∈ overlapSets, ¬(cs.lower_limit ≤ (100 : ℚ) ∧ (100 : ℚ) ≤ cs.upper_limit)) ∧
    overlapLib.get_coeffs "water" 100
      = .error (.temperatureOutOfRange (some (100, "Kelvin"))) :=
  ⟨by decide,
   get_coeffs_out_of_range_payload overlapLib "water" 100 overlapSets
     (by decide) (by decide)⟩

/-- C6 counterexample: the early unknown-species check in
`get_saturation_pressure` raises a bare `SpeciesNotFound()`: for the
unregistered species "ethanol" the failure carries no payload at all, in
particular not the offending species name. -/
theorem early_check_speciesNotFound_payload_missing :
    methanolLib.get_saturation_pressure "ethanol" 50
      = .error (.speciesNotFound none) := by
  rw [AntoineCoefficientLib.get_saturation_pressure, if_pos (by decide)]

/-- C6 (amended): `SpeciesNotFound` failures raised by `get_coeffs` — and hence
those propagated by the three accessors — carry a message naming the offending
species, while the early check in `get_saturation_pressure` raises
`SpeciesNotFound` with no payload. -/
theorem speciesNotFound_payload_contents
    (lib : AntoineCoefficientLib) (s : String) (T : ℚ)
    (h : dictLookup lib.antoine_coeff_lib s = none) :
    lib.get_coeffs s T
      = .error (.speciesNotFound (some (s ++ " is not in this dictionary"))) ∧
    lib.get_a s T
      = .error (.speciesNotFound (some (s ++ " is not in this dictionary"))) ∧
    lib.get_b s T
      = .error (.speciesNotFound (some (s ++ " is not in this dictionary"))) ∧
    lib.get_c s T
      = .error (.speciesNotFound (some (s ++ " is not in this dictionary"))) ∧
    lib.get_saturation_pressure s T = .error (.speciesNotFound none) := by
  have hc := get_coeffs_of_lookup_none lib s T h
  refine ⟨hc, ?_, ?_, ?_, ?_⟩
  · rw [AntoineCoefficientLib.get_a, hc]; rfl
  · rw [AntoineCoefficientLib.get_b, hc]; rfl
  · rw [AntoineCoefficientLib.get_c, hc]; rfl
  · rw [AntoineCoefficientLib.get_saturation_pressure,
      if_pos (by simp [dictContains, h])]

/-- C6 witness: the payloads at the unregistered species "ethanol" of
`overlapLib`. -/
theorem speciesNotFound_payload_contents_instance :
    dictLookup overlapLib.antoine_coeff_lib "ethanol" = none ∧
    (overlapLib.get_coeffs "ethanol" 25
        = .error (.speciesNotFound (some ("ethanol" ++ " is not in this dictionary"))) ∧
     overlapLib.get_a "ethanol" 25
        = .error (.speciesNotFound (some ("ethanol" ++ " is not in this dictionary"))) ∧
     overlapLib.get_b "ethanol" 25
        = .error (.speciesNotFound (some ("ethanol" ++ " is not in this dictionary"))) ∧
     overlapLib.get_c "ethanol" 25
        = .error (.speciesNotFound (some ("ethanol" ++ " is not in this dictionary"))) ∧
     overlapLib.get_saturation_pressure "ethanol" 25
        = .error (.speciesNotFound none)) :=
  ⟨by decide, speciesNotFound_payload_contents overlapLib "ethanol" 25 (by decide)⟩

/-- C7: whenever `get_coeffs` resolves a set, the defensive re-validation in
`get_saturation_pressure` passes, and the bare `TemperatureOutOfRange()`
branch it guards is unreachable. -/
theorem defensive_recheck_always_passes
    (lib : AntoineCoefficientLib) (s : String) (T : ℚ) (cs : CoefficientSet)
    (h : lib.get_coeffs s T = .ok cs) :
    _check_temperature T cs = true ∧
    lib.get_saturation_pressure s T ≠ .error (.temperatureOutOfRange none) := by
  refine ⟨get_coeffs_ok_check lib s T cs h, ?_⟩
  rw [get_saturation_pressure_of_get_coeffs_ok lib s T cs h]
  intro hbad
  exact PyError.noConfusion
    (saturation_pressure_error_elim cs.A cs.B cs.C T lib.is_log10 _ hbad)

/-- C7 witness: the methanol query at 50 resolves, re-validates, and cannot
hit the guarded branch. -/
theorem defensive_recheck_instance :
    methanolLib.get_coeffs "methanol" 50 = .ok methanolSet ∧
    (_check_temperature 50 methanolSet = true ∧
     methanolLib.get_saturation_pressure "methanol" 50
        ≠ .error (.temperatureOutOfRange none)) :=
  ⟨methanol_get_coeffs_eval,
   defensive_recheck_always_passes methanolLib "methanol" 50 methanolSet
     methanol_get_coeffs_eval⟩

/-- C8: with `c + temperature = 0` the evaluator does not return a value: the
division-by-zero failure propagates as an arithmetic error, both from
`saturation_pressure` itself and through `get_saturation_pressure` when the
resolved set has `C = -T`. -/
theorem division_by_zero_propagates :
    (∀ (a b c T : ℚ) (flag : Bool), c + T = 0 →
        saturation_pressure a b c T flag = .error .zeroDivisionError) ∧
    (∀ (lib : AntoineCoefficientLib) (s : String) (T : ℚ) (cs : CoefficientSet),
        lib.get_coeffs s T = .ok cs → cs.C + T = 0 →
        lib.get_saturation_pressure s T = .error .zeroDivisionError) := by
  have base : ∀ (a b c T : ℚ) (flag : Bool), c + T = 0 →
      saturation_pressure a b c T flag = .error .zeroDivisionError := by
    intro a b c T flag hz
    rw [saturation_pressure, pydiv, if_pos hz]
    rfl
  refine ⟨base, fun lib s T cs h hz => ?_⟩
  rw [get_saturation_pressure_of_get_coeffs_ok lib s T cs h]
  exact base cs.A cs.B cs.C T lib.is_log10 hz

/-- C8 witness: `zeroDenomLib` resolves the set `C = -50` at `T = 50`, and the
pressure query propagates the division-by-zero error. -/
theorem division_by_zero_instance :
    zeroDenomLib.get_coeffs "x" 50 = .ok ⟨1, 1, -50, 0, 100⟩ ∧
    ((-50 : ℚ) + 50 = 0 ∧
     zeroDenomLib.get_saturation_pressure "x" 50 = .error .zeroDivisionError) := by
  have h : zeroDenomLib.get_coeffs "x" 50 = .ok ⟨1, 1, -50, 0, 100⟩ := by decide
  exact ⟨h, by norm_num,
    division_by_zero_propagates.2 zeroDenomLib "x" 50 ⟨1, 1, -50, 0, 100⟩ h
      (by norm_num)⟩

theorem dictLookup_dictAppendAt_self (d : List (String × List CoefficientSet))
    (k : String) (v : CoefficientSet) :
    dictLookup (dictAppendAt d k v) k
      = some (((dictLookup d k).getD []) ++ [v]) := by
  induction d with
  | nil => simp [dictAppendAt, dictLookup]
  | cons p rest ih =>
    obtain ⟨k', vs⟩ := p
    by_cases hk : k' = k
    · subst hk
      simp [dictAppendAt, dictLookup]
    · simp [dictAppendAt, dictLookup, hk, ih]

theorem dictLookup_dictAppendAt_other (d : List (String × List CoefficientSet))
    (k s' : String) (v : CoefficientSet) (h : s' ≠ k) :
    dictLookup (dictAppendAt d k v) s' = dictLookup d s' := by
  induction d with
  | nil => simp [dictAppendAt, dictLookup, Ne.symm h]
  | cons p rest ih =>
    obtain ⟨k', vs⟩ := p
    by_cases hk : k' = k
    · subst hk
      simp [dictAppendAt, dictLookup, Ne.symm h]
    · simp [dictAppendAt, dictLookup, hk, ih]

/-- C9: `add_coefficients` is total and unconditional — afterwards the entry
for the species is its previous sequence (empty for an unseen species) with
the new set appended at the end, whatever the six values, including
`lower > upper` or intervals overlapping existing sets. -/
theorem add_coefficients_appends_unconditionally
    (lib : AntoineCoefficientLib) (s : String) (a b c lo hi : ℚ) :
    dictLookup (lib.add_coefficients s a b c lo hi).antoine_coeff_lib s
      = some (((dictLookup lib.antoine_coeff_lib s).getD []) ++ [⟨a, b, c, lo, hi⟩]) :=
  dictLookup_dictAppendAt_self lib.antoine_coeff_lib s ⟨a, b, c, lo, hi⟩

/-- C10: every query leaves the library state unchanged, and
`add_coefficients` for `s` changes only the entry for `s`: every other
species' entry and all four descriptive attributes are preserved. -/
theorem queries_pure_and_add_frame :
    (∀ (lib : AntoineCoefficientLib) (op : LibOp), op.isQuery = true →
        (runOp lib op).1 = lib) ∧
    (∀ (lib : AntoineCoefficientLib) (s : String) (a b c lo hi : ℚ) (s' : String),
        s' ≠ s →
        dictLookup (lib.add_coefficients s a b c lo hi).antoine_coeff_lib s'
          = dictLookup lib.antoine_coeff_lib s') ∧
    (∀ (lib : AntoineCoefficientLib) (s : String) (a b c lo hi : ℚ),
        (lib.add_coefficients s a b c lo hi).source = lib.source ∧
        (lib.add_coefficients s a b c lo hi).temperature_units = lib.temperature_units ∧
        (lib.add_coefficients s a b c lo hi).pressure_units = lib.pressure_units ∧
        (lib.add_coefficients s a b c lo hi).is_log10 = lib.is_log10) := by
  refine ⟨fun lib op h => ?_, fun lib s a b c lo hi s' h => ?_,
    fun lib s a b c lo hi => ⟨rfl, rfl, rfl, rfl⟩⟩
  · cases op <;> first | rfl | exact absurd h (by simp [LibOp.isQuery])
  · exact dictLookup_dictAppendAt_other lib.antoine_coeff_lib s s' ⟨a, b, c, lo, hi⟩ h

/-- C10 witness: a query on the methanol library leaves it unchanged, and
registering more methanol data does not touch the (absent) benzene entry. -/
theorem queries_pure_and_add_frame_instance :
    ("benzene" ≠ "methanol") ∧
    dictLookup (methanolLib.add_coefficients "methanol" 1 2 3 4 5).antoine_coeff_lib "benzene"
      = dictLookup methanolLib.antoine_coeff_lib "benzene" ∧
    (runOp methanolLib (.getAOp "methanol" 50)).1 = methanolLib :=
  ⟨by decide,
   queries_pure_and_add_frame.2.1 methanolLib "methanol" 1 2 3 4 5 "benzene" (by decide),
   queries_pure_and_add_frame.1 methanolLib (.getAOp "methanol" 50) rfl⟩
